import Mathlib

/-!
Verification of the metadata-acquisition core of the youtube-downloader
repository: the Metadata Resolver (`fetchRealVideoMetadata`) and the
Fallback Synthesizer (`getFallbackMetadata`) from the Gemini service module.

The embedding models JavaScript runtime values produced by `JSON.parse`
(plus `undefined` for absent-property access) as the inductive type `Js`,
JS truthiness and the `||` operator, `JSON.parse` itself as a recursive
descent parser `jsonParse` over the JSON grammar the module can receive
(number literals are modelled as integers; string escape sequences,
fractional and exponent number forms are not modelled and count as parse
failures, which land in the same catch-and-fallback branch as any other
`JSON.parse` exception), and the `Promise.race` between the AI query and
the 25 000 ms timer as a function of the query's externally chosen
behaviour (`AiBehavior`): never settling, rejecting at some time, or
resolving at some time with a `response.text` that is a string or
`undefined`. The result carries the resolved metadata together with the
number of milliseconds after which the returned promise settles.
-/

/-- JavaScript runtime values reachable in the module: everything
`JSON.parse` can produce, plus `undefined`, which property access on a
non-object yields. JSON numbers are modelled as integers. -/
inductive Js where
  | undefined : Js
  | null : Js
  | bool : Bool → Js
  | num : Int → Js
  | str : String → Js
  | arr : List Js → Js
  | obj : List (String × Js) → Js
deriving Repr

/-- JavaScript truthiness of a value. -/
def Js.truthy : Js → Bool
  | .undefined => false
  | .null => false
  | .bool b => b
  | .num n => n != 0
  | .str s => s != ""
  | .arr _ => true
  | .obj _ => true

/-- A value is defined when it is neither `undefined` nor `null`. -/
def Js.isDefined : Js → Bool
  | .undefined => false
  | .null => false
  | _ => true

/-- JavaScript property access `v[k]`: looks the key up in an object,
yields `undefined` on any other non-null value. (Access on `null` throws
instead; the resolver model handles that case separately.) -/
def Js.getField : Js → String → Js
  | .obj fs, k => match fs.lookup k with
    | some v => v
    | none => .undefined
  | _, _ => .undefined

/-- The JavaScript `||` operator: the left operand when truthy, otherwise
the right operand. -/
def jsOr (v d : Js) : Js := if v.truthy then v else d

/-- Scan for `pat` as a contiguous run of `s`. -/
def hasInfix (pat : List Char) : List Char → Bool
  | [] => pat.isEmpty
  | c :: cs => pat.isPrefixOf (c :: cs) || hasInfix pat cs

/-- JavaScript substring containment, `String.prototype.includes`. -/
def strIncludes (s pat : String) : Bool := hasInfix pat.toList s.toList

/- JSON parsing: a recursive descent model of `JSON.parse`. -/

/-- The opening brace character. -/
def lbrace : Char := Char.ofNat 123

/-- The closing brace character. -/
def rbrace : Char := Char.ofNat 125

/-- Skip JSON insignificant whitespace. -/
def skipWs : List Char → List Char
  | c :: cs => if c = ' ' || c = '\n' || c = '\t' || c = '\r' then skipWs cs else c :: cs
  | [] => []

/-- Parse the body of a JSON string after the opening quote; escape
sequences are not modelled and fail the parse. -/
def parseStrBody : List Char → String → Option (String × List Char)
  | [], _ => none
  | c :: cs, acc =>
    if c = '"' then some (acc, cs)
    else if c = '\\' then none
    else parseStrBody cs (acc.push c)

/-- Consume an expected literal suffix (for `null`, `true`, `false`). -/
def expectLit (lit : List Char) (cs : List Char) (v : Js) : Option (Js × List Char) :=
  if lit.isPrefixOf cs then some (v, cs.drop lit.length) else none

/-- Parse a run of decimal digits into a natural number. -/
def parseDigits (cs : List Char) : Option (Nat × List Char) :=
  let (digits, rest) := cs.span Char.isDigit
  if digits.isEmpty then none
  else some (digits.foldl (fun acc c => acc * 10 + (c.toNat - 48)) 0, rest)

/-- Record a member while parsing an object: as in `JSON.parse`, a
duplicate key overwrites the earlier value in place. -/
def insertField (fs : List (String × Js)) (k : String) (v : Js) : List (String × Js) :=
  match fs with
  | [] => [(k, v)]
  | (k', v') :: rest => if k' = k then (k, v) :: rest else (k', v') :: insertField rest k v

mutual

/-- Parse one JSON value, fuelled by an upper bound on nesting. -/
def parseVal : Nat → List Char → Option (Js × List Char)
  | 0, _ => none
  | fuel + 1, cs =>
    match skipWs cs with
    | [] => none
    | c :: rest =>
      if c = '"' then
        match parseStrBody rest "" with
        | some (s, r) => some (.str s, r)
        | none => none
      else if c = 'n' then expectLit ['u', 'l', 'l'] rest .null
      else if c = 't' then expectLit ['r', 'u', 'e'] rest (.bool true)
      else if c = 'f' then expectLit ['a', 'l', 's', 'e'] rest (.bool false)
      else if c = '-' then
        match parseDigits rest with
        | some (n, r) => some (.num (-(n : Int)), r)
        | none => none
      else if c.isDigit then
        match parseDigits (c :: rest) with
        | some (n, r) => some (.num (n : Int), r)
        | none => none
      else if c = lbrace then
        match skipWs rest with
        | c' :: r' =>
          if c' = rbrace then some (.obj [], r')
          else parseMembers fuel (c' :: r') []
        | [] => none
      else if c = '[' then
        match skipWs rest with
        | c' :: r' =>
          if c' = ']' then some (.arr [], r')
          else parseElems fuel (c' :: r') []
        | [] => none
      else none

/-- Parse the members of a non-empty JSON object, accumulating fields. -/
def parseMembers : Nat → List Char → List (String × Js) → Option (Js × List Char)
  | 0, _, _ => none
  | fuel + 1, cs, acc =>
    match skipWs cs with
    | '"' :: rest =>
      match parseStrBody rest "" with
      | some (k, r1) =>
        match skipWs r1 with
        | ':' :: r2 =>
          match parseVal fuel r2 with
          | some (v, r3) =>
            match skipWs r3 with
            | ',' :: r4 => parseMembers fuel r4 (insertField acc k v)
            | c :: r4 =>
              if c = rbrace then some (.obj (insertField acc k v), r4) else none
            | [] => none
          | none => none
        | _ => none
      | none => none
    | _ => none

/-- Parse the elements of a non-empty JSON array, accumulating values. -/
def parseElems : Nat → List Char → List Js → Option (Js × List Char)
  | 0, _, _ => none
  | fuel + 1, cs, acc =>
    match parseVal fuel cs with
    | some (v, r1) =>
      match skipWs r1 with
      | ',' :: r2 => parseElems fuel r2 (acc ++ [v])
      | ']' :: r2 => some (.arr (acc ++ [v]), r2)
      | _ => none
    | none => none

end

/-- Model of `JSON.parse`: parse one value and require the remaining
input to be whitespace; `none` models a thrown `SyntaxError`. -/
def jsonParse (s : String) : Option Js :=
  match parseVal (s.length + 1) s.toList with
  | some (v, rest) => if (skipWs rest).isEmpty then some v else none
  | none => none

/- The two core components, translated from the Gemini service module. -/

/-- The resolved metadata record. Field values are JavaScript runtime
values: the TypeScript interface declares them as strings, but the
normalisation assigns whatever `JSON.parse` produced whenever it is
truthy, so the runtime type is `Js`. -/
structure RealVideoMetadata where
  title : Js
  author : Js
  views : Js
  duration : Js
  summary : Js
  estimatedSizes : Js
deriving Repr

/-- The fixed size table of the fallback metadata. -/
def fallbackSizes : Js :=
  .obj [("2160p", .str "1.4 GB"), ("1080p", .str "450 MB"), ("720p", .str "210 MB"),
        ("360p", .str "65 MB"), ("audio", .str "8.5 MB")]

/-- The Fallback Synthesizer `getFallbackMetadata`: classifies the URL by
substring containment and returns fixed placeholder metadata. -/
def getFallbackMetadata (url : String) : RealVideoMetadata :=
  let isYoutube := strIncludes url "youtube.com" || strIncludes url "youtu.be"
  let isVimeo := strIncludes url "vimeo.com"
  { title := .str "High-Definition Media Stream"
    author := .str (if isYoutube then "YouTube Creator"
                    else if isVimeo then "Vimeo Pro User"
                    else "Verified Source")
    views := .str "Live Stream"
    duration := .str "Detected"
    summary := .str "Real-time extraction bridge established. Securely pulling media packets from source CDN nodes."
    estimatedSizes := fallbackSizes }

/-- The fixed race deadline, `TIMEOUT_MS`. -/
def TIMEOUT_MS : Nat := 25000

/-- The externally chosen behaviour of the AI query (`ai.models.generateContent`):
it may never settle, reject at some time (network error, service error, or
any throw before a response is produced), or resolve at some time with a
`response.text` that is a string or absent (`undefined`). Times are in
milliseconds from the invocation. -/
inductive AiBehavior where
  | neverSettles : AiBehavior
  | rejects : Nat → AiBehavior
  | resolves : Nat → Option String → AiBehavior
deriving Repr

/-- Model of the response-text defaulting step of the success branch: an
absent or empty `response.text` is replaced by the two-character text of
the empty JSON object before parsing. -/
def effectiveText : Option String → String
  | none => String.mk [lbrace, rbrace]
  | some s => if s = "" then String.mk [lbrace, rbrace] else s

/-- The object-literal normalisation of a successfully parsed payload:
each field falls back to its documented default when the parsed value is
falsy, and `estimatedSizes` falls back to the synthesizer's size table. -/
def normalizeData (url : String) (data : Js) : RealVideoMetadata :=
  { title := jsOr (data.getField "title") (.str "Found Media Content")
    author := jsOr (data.getField "author") (.str "Source Verified")
    views := jsOr (data.getField "views") (.str "N/A")
    duration := jsOr (data.getField "duration") (.str "00:00")
    summary := jsOr (data.getField "summary") (.str "Media analysis complete.")
    estimatedSizes := jsOr (data.getField "estimatedSizes") (getFallbackMetadata url).estimatedSizes }

/-- The body of `fetchPromise` after the query resolved with a response:
take the effective response text, run `JSON.parse` on it, and build the
normalised record. A parse failure throws and is caught (fallback), and
property access on a parsed `null` payload throws a `TypeError` that the
same catch turns into fallback output. -/
def runSuccessBody (url : String) (text : Option String) : RealVideoMetadata :=
  match jsonParse (effectiveText text) with
  | none => getFallbackMetadata url
  | some .null => getFallbackMetadata url
  | some data => normalizeData url data

/-- The Metadata Resolver `fetchRealVideoMetadata`: races `fetchPromise`
against the 25 000 ms timer. The result pairs the metadata the returned
promise resolves with and the time in milliseconds at which it settles.
The inner catch turns any query failure into fallback output (still a
resolution of `fetchPromise`), and the outer catch turns a timeout
rejection of the race into fallback output; no rejection escapes to the
caller. A query settling at or after the deadline loses the race: the
rejection of the timer settles the race at `TIMEOUT_MS`. -/
def fetchRealVideoMetadata (url : String) (b : AiBehavior) : RealVideoMetadata × Nat :=
  match b with
  | .neverSettles => (getFallbackMetadata url, TIMEOUT_MS)
  | .rejects t =>
    if t < TIMEOUT_MS then (getFallbackMetadata url, t)
    else (getFallbackMetadata url, TIMEOUT_MS)
  | .resolves t text =>
    if t < TIMEOUT_MS then (runSuccessBody url text, t)
    else (getFallbackMetadata url, TIMEOUT_MS)

/-- Decidable check that a value is an object binding all five quality
keys to non-empty strings. -/
def hasAllQualityKeys (v : Js) : Bool :=
  ["2160p", "1080p", "720p", "360p", "audio"].all fun k =>
    match v.getField k with
    | .str s => s != ""
    | _ => false

/-- All six fields of a metadata record are defined (neither `undefined`
nor `null`). -/
def allFieldsDefined (m : RealVideoMetadata) : Bool :=
  m.title.isDefined && m.author.isDefined && m.views.isDefined &&
  m.duration.isDefined && m.summary.isDefined && m.estimatedSizes.isDefined

/-- The record built entirely from the per-field defaults of the success
branch, with the estimated sizes defaulting to the fallback size table. -/
def perFieldDefaults : RealVideoMetadata :=
  { title := .str "Found Media Content"
    author := .str "Source Verified"
    views := .str "N/A"
    duration := .str "00:00"
    summary := .str "Media analysis complete."
    estimatedSizes := fallbackSizes }

/-- A payload missing author and two of the five size keys: the response
text of a partially successful AI answer. -/
def partialSizesText : String :=
  "\x7b\"title\":\"My Video\",\"views\":\"1000\",\"duration\":\"10:00\",\"summary\":\"Nice.\",\"estimatedSizes\":\x7b\"2160p\":\"2 GB\",\"1080p\":\"500 MB\",\"720p\":\"250 MB\"\x7d\x7d"

/-- A payload whose size object carries a single quality key. -/
def singleSizeText : String := "\x7b\"estimatedSizes\":\x7b\"720p\":\"1 MB\"\x7d\x7d"

/-- A payload whose title is a number: present and truthy but not a
string. -/
def malformedTitleText : String := "\x7b\"title\":7\x7d"

/-- A payload whose title is the falsy number zero and whose views field
is a non-empty string. -/
def falsyTitleText : String := "\x7b\"title\":0,\"views\":\"99\"\x7d"

/-- A complete payload: all six fields populated as non-empty strings,
with a full five-key size object. -/
def fullPayloadText : String :=
  "\x7b\"title\":\"T\",\"author\":\"A\",\"views\":\"1\",\"duration\":\"0:10\",\"summary\":\"S\",\"estimatedSizes\":\x7b\"2160p\":\"1 GB\",\"1080p\":\"500 MB\",\"720p\":\"200 MB\",\"360p\":\"60 MB\",\"audio\":\"8 MB\"\x7d\x7d"

/- Helper lemmas shared by the claim theorems. -/

/-- A truthy value is defined. -/
theorem Js.truthy_isDefined (v : Js) (h : v.truthy = true) : v.isDefined = true := by
  cases v <;> simp_all [Js.truthy, Js.isDefined]

/-- The JavaScript or-else of anything with a defined default is defined. -/
theorem jsOr_isDefined (v d : Js) (hd : d.isDefined = true) : (jsOr v d).isDefined = true := by
  unfold jsOr
  split
  · exact Js.truthy_isDefined v (by assumption)
  · exact hd

/-- Every field of the fallback metadata is defined. -/
theorem allFieldsDefined_fallback (url : String) :
    allFieldsDefined (getFallbackMetadata url) = true := rfl

/-- Every field of a normalised payload is defined. -/
theorem allFieldsDefined_normalize (url : String) (data : Js) :
    allFieldsDefined (normalizeData url data) = true := by
  simp only [allFieldsDefined, normalizeData, Bool.and_eq_true]
  exact ⟨⟨⟨⟨⟨jsOr_isDefined _ _ rfl, jsOr_isDefined _ _ rfl⟩, jsOr_isDefined _ _ rfl⟩,
    jsOr_isDefined _ _ rfl⟩, jsOr_isDefined _ _ rfl⟩, jsOr_isDefined _ _ rfl⟩

/-- When the effective text parses to a non-null payload, the success
branch returns the normalised payload. -/
theorem runSuccessBody_parsed (url : String) (text : Option String) (data : Js)
    (hp : jsonParse (effectiveText text) = some data) (hnull : data ≠ .null) :
    runSuccessBody url text = normalizeData url data := by
  unfold runSuccessBody
  rw [hp]
  cases data <;> first | rfl | exact absurd rfl hnull

/-- C1: for every input URL and every behaviour of the AI query service
(success, rejection, malformed payload, or never settling), the resolver
returns a metadata value whose six fields are all populated, never
undefined or null; being a total function into the metadata type, no
error or rejection escapes to the caller. -/
theorem resolver_total_all_fields_populated (url : String) (b : AiBehavior) :
    allFieldsDefined (fetchRealVideoMetadata url b).1 = true := by
  cases b with
  | neverSettles => exact allFieldsDefined_fallback url
  | rejects t =>
    show allFieldsDefined
      (if t < TIMEOUT_MS then (getFallbackMetadata url, t)
       else (getFallbackMetadata url, TIMEOUT_MS)).1 = true
    split <;> exact allFieldsDefined_fallback url
  | resolves t text =>
    show allFieldsDefined
      (if t < TIMEOUT_MS then (runSuccessBody url text, t)
       else (getFallbackMetadata url, TIMEOUT_MS)).1 = true
    split
    · show allFieldsDefined (runSuccessBody url text) = true
      unfold runSuccessBody
      cases hp : jsonParse (effectiveText text) with
      | none => exact allFieldsDefined_fallback url
      | some data =>
        cases data
        case null => exact allFieldsDefined_fallback url
        all_goals exact allFieldsDefined_normalize url _
    · exact allFieldsDefined_fallback url

/-- C5: when the AI query never settles, the resolver returns exactly the
Fallback Synthesizer output for the URL, and the promise settles exactly
at the 25 000 ms deadline — not before it and not after it. -/
theorem never_settles_fallback_at_deadline (url : String) :
    fetchRealVideoMetadata url .neverSettles = (getFallbackMetadata url, 25000) := rfl

/-- C6: when the AI query rejects before the deadline, the resolver
settles at the rejection time — strictly before the 25 000 ms timeout —
with the Fallback Synthesizer output; the failure is absorbed into a
normal resolution, not surfaced as an error. -/
theorem early_rejection_fallback_before_deadline (url : String) (t : Nat)
    (h : t < TIMEOUT_MS) :
    fetchRealVideoMetadata url (.rejects t) = (getFallbackMetadata url, t)
  ∧ (∀ text, jsonParse (effectiveText text) = none →
      fetchRealVideoMetadata url (.resolves t text) = (getFallbackMetadata url, t))
  ∧ t < 25000 := by
  refine ⟨?_, ?_, h⟩
  · show (if t < TIMEOUT_MS then (getFallbackMetadata url, t)
          else (getFallbackMetadata url, TIMEOUT_MS)) = (getFallbackMetadata url, t)
    rw [if_pos h]
  · intro text hp
    show (if t < TIMEOUT_MS then (runSuccessBody url text, t)
          else (getFallbackMetadata url, TIMEOUT_MS)) = (getFallbackMetadata url, t)
    rw [if_pos h]
    unfold runSuccessBody
    rw [hp]

/-- Witness for C6 at a concrete URL: an immediate rejection, and an
immediate success whose text is not valid JSON. -/
theorem early_rejection_fallback_before_deadline_witness :
    fetchRealVideoMetadata "https://example.com/a" (.rejects 0) =
      (getFallbackMetadata "https://example.com/a", 0)
  ∧ fetchRealVideoMetadata "https://example.com/a" (.resolves 0 (some "not json")) =
      (getFallbackMetadata "https://example.com/a", 0)
  ∧ 0 < 25000 :=
  have h := early_rejection_fallback_before_deadline "https://example.com/a" 0 (by decide)
  ⟨h.1, h.2.1 (some "not json") rfl, h.2.2⟩

/-- C7: for every URL the Fallback Synthesizer returns the fixed title,
views, duration and five-key size table, and an author chosen by the
three-way substring classification; in particular a youtube.com watch URL
yields the primary placeholder, a vimeo.com URL the secondary one, and an
unrelated URL the generic one. -/
theorem fallback_synthesizer_shape (url : String) :
    (getFallbackMetadata url).title = Js.str "High-Definition Media Stream"
  ∧ (getFallbackMetadata url).views = Js.str "Live Stream"
  ∧ (getFallbackMetadata url).duration = Js.str "Detected"
  ∧ (getFallbackMetadata url).estimatedSizes =
      Js.obj [("2160p", .str "1.4 GB"), ("1080p", .str "450 MB"), ("720p", .str "210 MB"),
              ("360p", .str "65 MB"), ("audio", .str "8.5 MB")]
  ∧ (getFallbackMetadata url).author =
      Js.str (if strIncludes url "youtube.com" || strIncludes url "youtu.be" then "YouTube Creator"
              else if strIncludes url "vimeo.com" then "Vimeo Pro User"
              else "Verified Source")
  ∧ (getFallbackMetadata "https://www.youtube.com/watch?v=x").author = Js.str "YouTube Creator"
  ∧ (getFallbackMetadata "https://vimeo.com/123").author = Js.str "Vimeo Pro User"
  ∧ (getFallbackMetadata "https://example.com/v.mp4").author = Js.str "Verified Source" :=
  ⟨rfl, rfl, rfl, rfl, rfl, rfl, rfl, rfl⟩

/-- C10: the primary-platform check takes precedence: any URL containing
both a primary-platform substring and the secondary-platform substring is
classified as primary, so the author is the primary placeholder. -/
theorem youtube_classification_precedes_vimeo (url : String)
    (hy : (strIncludes url "youtube.com" || strIncludes url "youtu.be") = true)
    (_hv : strIncludes url "vimeo.com" = true) :
    (getFallbackMetadata url).author = Js.str "YouTube Creator" := by
  unfold getFallbackMetadata
  simp only [hy, if_true]

/-- Witness for C10 on a URL containing both youtube.com and vimeo.com. -/
theorem youtube_classification_precedes_vimeo_witness :
    (getFallbackMetadata "https://www.youtube.com/redirect?to=vimeo.com").author =
      Js.str "YouTube Creator" :=
  youtube_classification_precedes_vimeo "https://www.youtube.com/redirect?to=vimeo.com"
    (by decide) (by decide)

set_option maxRecDepth 100000 in
/-- C2 (code evaluation at the failing input): on a success payload that
is missing author and two of the five size keys, the resolver fills the
author default but returns the partial size object verbatim — the two
missing quality keys are not filled from the fallback table, because the
code substitutes the whole object only when it is absent or falsy. -/
theorem partial_sizes_not_merged :
    (fetchRealVideoMetadata "https://example.com/v" (.resolves 0 (some partialSizesText))).1.author
      = Js.str "Source Verified"
  ∧ (fetchRealVideoMetadata "https://example.com/v" (.resolves 0 (some partialSizesText))).1.estimatedSizes
      = Js.obj [("2160p", .str "2 GB"), ("1080p", .str "500 MB"), ("720p", .str "250 MB")]
  ∧ ((fetchRealVideoMetadata "https://example.com/v" (.resolves 0 (some partialSizesText))).1.estimatedSizes.getField "360p")
      = Js.undefined
  ∧ ((fetchRealVideoMetadata "https://example.com/v" (.resolves 0 (some partialSizesText))).1.estimatedSizes.getField "audio")
      = Js.undefined :=
  ⟨rfl, rfl, rfl, rfl⟩

/-- C3 (code evaluation at the failing input): a success payload whose
size object carries a single key yields a resolved record whose
estimatedSizes does not contain all five quality keys, refuting the
five-key non-empty-string invariant. -/
theorem five_key_invariant_fails :
    hasAllQualityKeys
      ((fetchRealVideoMetadata "https://example.com/w" (.resolves 0 (some singleSizeText))).1.estimatedSizes)
      = false
  ∧ ((fetchRealVideoMetadata "https://example.com/w" (.resolves 0 (some singleSizeText))).1.estimatedSizes.getField "2160p")
      = Js.undefined :=
  ⟨rfl, rfl⟩

/-- C4 counterexample: a payload whose title is the number 7 — present,
truthy, but malformed (not a string) — is returned verbatim instead of
being replaced by the documented default. -/
theorem malformed_title_kept :
    (fetchRealVideoMetadata "https://example.com/m" (.resolves 0 (some malformedTitleText))).1.title
      = Js.num 7
  ∧ Js.num 7 ≠ Js.str "Found Media Content" :=
  ⟨rfl, fun h => Js.noConfusion h⟩

/-- C4 amended: when the AI query settles first with a success whose text
parses to a non-null payload, each field of the result is the parsed
value when that value is truthy and the documented default exactly when
it is absent or falsy (null, false, 0, empty string); estimatedSizes is
replaced by the fallback size table exactly when absent or falsy, and a
truthy value — even a malformed non-object one — is kept verbatim. -/
theorem defaults_applied_iff_falsy (url : String) (t : Nat) (text : Option String) (data : Js)
    (ht : t < TIMEOUT_MS)
    (hp : jsonParse (effectiveText text) = some data)
    (hnull : data ≠ .null) :
    (fetchRealVideoMetadata url (.resolves t text)).1.title
      = (if (data.getField "title").truthy then data.getField "title" else .str "Found Media Content")
  ∧ (fetchRealVideoMetadata url (.resolves t text)).1.author
      = (if (data.getField "author").truthy then data.getField "author" else .str "Source Verified")
  ∧ (fetchRealVideoMetadata url (.resolves t text)).1.views
      = (if (data.getField "views").truthy then data.getField "views" else .str "N/A")
  ∧ (fetchRealVideoMetadata url (.resolves t text)).1.duration
      = (if (data.getField "duration").truthy then data.getField "duration" else .str "00:00")
  ∧ (fetchRealVideoMetadata url (.resolves t text)).1.summary
      = (if (data.getField "summary").truthy then data.getField "summary" else .str "Media analysis complete.")
  ∧ (fetchRealVideoMetadata url (.resolves t text)).1.estimatedSizes
      = (if (data.getField "estimatedSizes").truthy then data.getField "estimatedSizes" else fallbackSizes) := by
  have hfst : (fetchRealVideoMetadata url (.resolves t text)).1 = normalizeData url data := by
    show (if t < TIMEOUT_MS then (runSuccessBody url text, t)
          else (getFallbackMetadata url, TIMEOUT_MS)).1 = normalizeData url data
    rw [if_pos ht]
    exact runSuccessBody_parsed url text data hp hnull
  rw [hfst]
  exact ⟨rfl, rfl, rfl, rfl, rfl, rfl⟩

/-- Witness for the amended C4: a payload whose title is the falsy
number 0 gets the title default while its non-empty views string is kept. -/
theorem defaults_applied_iff_falsy_witness :
    (fetchRealVideoMetadata "https://example.com/n" (.resolves 0 (some falsyTitleText))).1.title
      = Js.str "Found Media Content"
  ∧ (fetchRealVideoMetadata "https://example.com/n" (.resolves 0 (some falsyTitleText))).1.views
      = Js.str "99" := by
  have h := defaults_applied_iff_falsy "https://example.com/n" 0 (some falsyTitleText)
    (.obj [("title", .num 0), ("views", .str "99")]) (by decide) rfl
    (fun hc => Js.noConfusion hc)
  exact ⟨h.1, h.2.2.1⟩

/-- C8: when the AI query resolves before the deadline with a payload all
of whose six fields are populated as non-empty strings, including a full
five-key size object, the resolver returns exactly those values and
settles at the resolution time. -/
theorem full_payload_returned_verbatim (url : String) (t : Nat) (text : String) (data : Js)
    (T A V D S : String) (sizes : List (String × Js))
    (ht : t < TIMEOUT_MS)
    (hp : jsonParse (effectiveText (some text)) = some data)
    (hT : data.getField "title" = .str T) (hT0 : T ≠ "")
    (hA : data.getField "author" = .str A) (hA0 : A ≠ "")
    (hV : data.getField "views" = .str V) (hV0 : V ≠ "")
    (hD : data.getField "duration" = .str D) (hD0 : D ≠ "")
    (hS : data.getField "summary" = .str S) (hS0 : S ≠ "")
    (hE : data.getField "estimatedSizes" = .obj sizes)
    (_hfull : hasAllQualityKeys (.obj sizes) = true) :
    fetchRealVideoMetadata url (.resolves t (some text)) =
      ({ title := .str T, author := .str A, views := .str V, duration := .str D,
         summary := .str S, estimatedSizes := .obj sizes }, t) := by
  have hnull : data ≠ .null := by
    intro hc
    rw [hc] at hT
    exact Js.noConfusion hT
  show (if t < TIMEOUT_MS then (runSuccessBody url (some text), t)
        else (getFallbackMetadata url, TIMEOUT_MS)) =
      ({ title := .str T, author := .str A, views := .str V, duration := .str D,
         summary := .str S, estimatedSizes := .obj sizes }, t)
  rw [if_pos ht, runSuccessBody_parsed url (some text) data hp hnull]
  unfold normalizeData jsOr
  rw [hT, hA, hV, hD, hS, hE]
  simp [Js.truthy, hT0, hA0, hV0, hD0, hS0]

set_option maxRecDepth 100000 in
/-- Witness for C8 on a complete concrete payload. -/
theorem full_payload_returned_verbatim_witness :
    fetchRealVideoMetadata "https://example.com/f" (.resolves 0 (some fullPayloadText)) =
      ({ title := .str "T", author := .str "A", views := .str "1", duration := .str "0:10",
         summary := .str "S",
         estimatedSizes := .obj [("2160p", .str "1 GB"), ("1080p", .str "500 MB"),
           ("720p", .str "200 MB"), ("360p", .str "60 MB"), ("audio", .str "8 MB")] }, 0) :=
  full_payload_returned_verbatim "https://example.com/f" 0 fullPayloadText
    (.obj [("title", .str "T"), ("author", .str "A"), ("views", .str "1"),
      ("duration", .str "0:10"), ("summary", .str "S"),
      ("estimatedSizes", .obj [("2160p", .str "1 GB"), ("1080p", .str "500 MB"),
        ("720p", .str "200 MB"), ("360p", .str "60 MB"), ("audio", .str "8 MB")])])
    "T" "A" "1" "0:10" "S"
    [("2160p", .str "1 GB"), ("1080p", .str "500 MB"), ("720p", .str "200 MB"),
     ("360p", .str "60 MB"), ("audio", .str "8 MB")]
    (by decide) rfl rfl (by decide) rfl (by decide) rfl (by decide) rfl (by decide)
    rfl (by decide) rfl rfl

/-- C9: when the AI query resolves before the deadline with an absent or
empty response text, the resolver parses the empty object and returns the
per-field defaults together with the fallback size table — a record that
differs from the full Fallback Synthesizer output, whose title is the
stream placeholder. -/
theorem empty_text_yields_per_field_defaults (url : String) (t : Nat) (ht : t < TIMEOUT_MS) :
    fetchRealVideoMetadata url (.resolves t none) = (perFieldDefaults, t)
  ∧ fetchRealVideoMetadata url (.resolves t (some "")) = (perFieldDefaults, t)
  ∧ perFieldDefaults.title ≠ (getFallbackMetadata url).title
  ∧ perFieldDefaults.estimatedSizes = (getFallbackMetadata url).estimatedSizes := by
  refine ⟨?_, ?_, ?_, rfl⟩
  · show (if t < TIMEOUT_MS then (runSuccessBody url none, t)
          else (getFallbackMetadata url, TIMEOUT_MS)) = (perFieldDefaults, t)
    rw [if_pos ht]
    rfl
  · show (if t < TIMEOUT_MS then (runSuccessBody url (some ""), t)
          else (getFallbackMetadata url, TIMEOUT_MS)) = (perFieldDefaults, t)
    rw [if_pos ht]
    rfl
  · intro hc
    have : "Found Media Content" = "High-Definition Media Stream" := Js.str.inj hc
    exact absurd this (by decide)

/-- Witness for C9 at a concrete URL and an immediate empty-text success. -/
theorem empty_text_yields_per_field_defaults_witness :
    fetchRealVideoMetadata "https://example.com/e" (.resolves 0 none) = (perFieldDefaults, 0)
  ∧ fetchRealVideoMetadata "https://example.com/e" (.resolves 0 (some "")) = (perFieldDefaults, 0)
  ∧ perFieldDefaults.title ≠ (getFallbackMetadata "https://example.com/e").title
  ∧ perFieldDefaults.estimatedSizes = (getFallbackMetadata "https://example.com/e").estimatedSizes :=
  empty_text_yields_per_field_defaults "https://example.com/e" 0 (by decide)
